import Mathlib

/-!
Verification development for the DIM loadout-builder core: the edit reducer
(`loadout-builder-reducer.ts`) and the initial-configuration resolver
(`initial-loadout.ts`). TypeScript objects are embedded as Lean structures;
JavaScript `undefined`/absent fields as `Option`; per-key object maps as
functions `Nat → Option _`; the `showNotification` and `navigate` side
effects as explicit outputs.
-/

namespace DIM

/-! ## Basic data model -/

/-- DestinyClass enum from bungie-api-ts: Titan 0, Hunter 1, Warlock 2, Unknown 3. -/
def DestinyClass.Unknown : Int := 3

/-- An inventory bucket (equipment slot); only its hash is used here. -/
structure InventoryBucket where
  hash : Nat
deriving Repr, DecidableEq

/-- A DimItem, reduced to the fields the reducer reads: `id` and `bucket.hash`. -/
structure DimItem where
  id : String
  bucket : InventoryBucket
deriving Repr, DecidableEq

/-- displayProperties of a manifest definition; only `name` is used. -/
structure DisplayProperties where
  name : String
deriving Repr, DecidableEq

/-- A pluggable (mod) inventory item definition: `hash` and `displayProperties.name`. -/
structure PluggableInventoryItemDefinition where
  hash : Nat
  displayProperties : DisplayProperties
deriving Repr, DecidableEq

/-- A manifest inventory-item definition, reduced to the fields this code reads.
`plugCategoryHash` models `plug?.plugCategoryHash`, `uniqueLabel` models
`equippingBlock?.uniqueLabel`, `bucketTypeHash` models `inventory?.bucketTypeHash`. -/
structure InventoryItemDef where
  hash : Nat
  classType : Int := DestinyClass.Unknown
  plugCategoryHash : Option Nat := none
  uniqueLabel : Option String := none
  bucketTypeHash : Option Nat := none
deriving Repr, DecidableEq

/-- The manifest definitions table: `defs.InventoryItem.get`. -/
structure D2ManifestDefinitions where
  InventoryItem : Nat → Option InventoryItemDef

/-- `armor2PlugCategoryHashesByName.general` from d2-known-values. -/
def armor2PlugCategoryHashesByName.general : Nat := 2487827355

/-- A stat constraint entry of LoadoutParameters (dim-api-types). -/
structure StatConstraint where
  statHash : Nat
  minTier : Option Nat := none
  maxTier : Option Nat := none
deriving Repr, DecidableEq

/-- LoadoutParameters (dim-api-types), reduced to the fields this code reads and
writes. A `none` field models an absent (or undefined) key. -/
structure LoadoutParameters where
  mods : Option (List Nat) := none
  query : Option String := none
  statConstraints : Option (List StatConstraint) := none
  exoticArmorHash : Option Int := none
  assumeArmorMasterwork : Option Nat := none
  lockArmorEnergyType : Option Nat := none
deriving Repr, DecidableEq

/-- An item entry of a Loadout (loadout-types). -/
structure LoadoutItem where
  hash : Nat
  id : Option String := none
  amount : Nat := 1
  equip : Bool := false
  socketOverrides : Option (List (Nat × Nat)) := none
deriving Repr, DecidableEq

/-- A Loadout (loadout-types). `classType = none` models a NaN class number
(JS `parseInt` failure). -/
structure Loadout where
  id : String := ""
  name : String := ""
  classType : Option Int := some DestinyClass.Unknown
  items : List LoadoutItem := []
  parameters : Option LoadoutParameters := none
  notes : Option String := none
deriving Repr, DecidableEq

/-- A user-visible notification passed to `showNotification`. -/
structure Notification where
  type : String
  title : String
  body : String
deriving Repr, DecidableEq

/-- The i18n lookup `t(key)`: the external translation table is modelled as the
identity on the key. -/
def t (key : String) : String := key

/-- The i18n lookup `t(key, args)` with one interpolated argument: modelled as
the key followed by the argument. -/
def tInterpolate (key arg : String) : String := key ++ ": " ++ arg

/-! ## Editor state -/

/-- A single stat's filter state (types.ts is not in the excerpt; minimal model,
the reducer only stores and replaces these wholesale). -/
structure StatFilter where
  ignored : Bool := false
  min : Nat := 0
  max : Nat := 10
deriving Repr, DecidableEq

abbrev StatFilters := List (Nat × StatFilter)

/-- An armor set held for comparison (types.ts is not in the excerpt; minimal
model, the reducer only stores and clears these wholesale). -/
structure ArmorSet where
  armorIds : List String := []
deriving Repr, DecidableEq

/-- `PinnedItems`: bucket hash → at most one pinned item. JS object keys set to
`undefined` and absent keys are both `none`. -/
abbrev PinnedItems := Nat → Option DimItem

/-- `ExcludedItems`: bucket hash → excluded item list (absent = `none`). -/
abbrev ExcludedItems := Nat → Option (List DimItem)

/-- modPicker sub-state. The source field `open` is a Lean keyword, rendered
here as `opened`. -/
structure ModPickerState where
  opened : Bool
  plugCategoryHashWhitelist : Option (List Nat) := none
deriving Repr, DecidableEq

/-- LoadoutBuilderState from loadout-builder-reducer.ts. -/
structure LoadoutBuilderState where
  loadout : Loadout
  statOrder : List Nat
  statFilters : StatFilters
  pinnedItems : PinnedItems
  excludedItems : ExcludedItems
  selectedStoreId : Option String := none
  modPicker : ModPickerState
  compareSet : Option ArmorSet := none

/-! ## Actions -/

/-- The LoadoutBuilderAction tagged union. -/
inductive LoadoutBuilderAction where
  | changeCharacter (storeId : String)
  | statFiltersChanged (statFilters : StatFilters)
  | sortOrderChanged (sortOrder : List Nat)
  | assumeArmorMasterworkChanged (assumeArmorMasterwork : Option Nat)
  | lockArmorEnergyTypeChanged (lockArmorEnergyType : Option Nat)
  | pinItem (item : DimItem)
  | setPinnedItems (items : List DimItem)
  | unpinItem (item : DimItem)
  | excludeItem (item : DimItem)
  | unexcludeItem (item : DimItem)
  | lockedModsChanged (lockedMods : List PluggableInventoryItemDefinition)
  | removeLockedMod (m : PluggableInventoryItemDefinition)
  | addGeneralMods (mods : List PluggableInventoryItemDefinition)
  | updateSubclass (item : DimItem)
  | removeSubclass
  | updateSubclassSocketOverrides (socketOverrides : List (Nat × Nat))
  | removeSingleSubclassSocketOverride (plug : PluggableInventoryItemDefinition)
  | lockExotic (lockedExoticHash : Int)
  | removeLockedExotic
  | openModPicker (plugCategoryHashWhitelist : Option (List Nat))
  | closeModPicker
  | openCompareDrawer (s : ArmorSet)
  | closeCompareDrawer
deriving Repr

/-! ## Parameter merge -/

/-- A patch object passed to `mergeLoadoutParameters`. JS object spread
distinguishes an absent key (outer `none`: keep the existing field) from a key
present with value `undefined` (`some none`: overwrite with undefined), so each
field is doubled. -/
structure LoadoutParametersPatch where
  mods : Option (Option (List Nat)) := none
  query : Option (Option String) := none
  statConstraints : Option (Option (List StatConstraint)) := none
  exoticArmorHash : Option (Option Int) := none
  assumeArmorMasterwork : Option (Option Nat) := none
  lockArmorEnergyType : Option (Option Nat) := none

/-- Field-wise JS spread `{...p, ...patch}`. -/
def LoadoutParameters.applyPatch (p : LoadoutParameters) (patch : LoadoutParametersPatch) :
    LoadoutParameters where
  mods := patch.mods.getD p.mods
  query := patch.query.getD p.query
  statConstraints := patch.statConstraints.getD p.statConstraints
  exoticArmorHash := patch.exoticArmorHash.getD p.exoticArmorHash
  assumeArmorMasterwork := patch.assumeArmorMasterwork.getD p.assumeArmorMasterwork
  lockArmorEnergyType := patch.lockArmorEnergyType.getD p.lockArmorEnergyType

/-- `mergeLoadoutParameters` from loadout-builder-reducer.ts: spread the patch
over the loadout's (possibly absent) parameters; the result's parameters is
always a present object. -/
def mergeLoadoutParameters (state : LoadoutBuilderState) (params : LoadoutParametersPatch) :
    LoadoutBuilderState :=
  { state with
    loadout :=
      { state.loadout with
        parameters := some ((state.loadout.parameters.getD {}).applyPatch params) } }

/-! ## The reducer -/

/-- Whether a mod hash's definition is a general-category plug:
`defs.InventoryItem.get(mod)?.plug?.plugCategoryHash === armor2PlugCategoryHashesByName.general`. -/
def isGeneralMod (defs : D2ManifestDefinitions) (modHash : Nat) : Bool :=
  ((defs.InventoryItem modHash).bind (fun d => d.plugCategoryHash))
    == some armor2PlugCategoryHashesByName.general

/-- The general-category mod count of a mod hash list. -/
def generalModsCount (defs : D2ManifestDefinitions) (mods : List Nat) : Nat :=
  (mods.filter (isGeneralMod defs)).length

/-- The `for (const mod of action.mods)` loop of the addGeneralMods case:
threads the running count, accepted list and failure names. -/
def addGeneralModsLoop (cnt : Nat) (newMods : List Nat) (failures : List String) :
    List PluggableInventoryItemDefinition → Nat × List Nat × List String
  | [] => (cnt, newMods, failures)
  | m :: rest =>
    if cnt < 5 then addGeneralModsLoop (cnt + 1) (newMods ++ [m.hash]) failures rest
    else addGeneralModsLoop cnt newMods (failures ++ [m.displayProperties.name]) rest

/-- lodash `_.keyBy(items, i => i.bucket.hash)`: for duplicate keys the later
item wins. -/
def keyByBucketHash (items : List DimItem) : PinnedItems :=
  fun b => (items.filter (fun i => i.bucket.hash == b)).getLast?

/-- The mod list of the state's loadout parameters: `state.loadout.parameters?.mods ?? []`. -/
def loadoutMods (state : LoadoutBuilderState) : List Nat :=
  (state.loadout.parameters.bind (fun p => p.mods)).getD []

/-- `lbStateReducer` from loadout-builder-reducer.ts. The `showNotification`
side effect is returned explicitly as the list of notifications emitted. -/
def lbStateReducer (defs : D2ManifestDefinitions) (state : LoadoutBuilderState) :
    LoadoutBuilderAction → LoadoutBuilderState × List Notification
  | .changeCharacter storeId =>
    ({ state with
        selectedStoreId := some storeId
        pinnedItems := fun _ => none
        excludedItems := fun _ => none }, [])
  | .statFiltersChanged statFilters => ({ state with statFilters }, [])
  | .pinItem item =>
    let bucketHash := item.bucket.hash
    ({ state with
        pinnedItems := fun b => if b = bucketHash then some item else state.pinnedItems b
        excludedItems := fun b => if b = bucketHash then none else state.excludedItems b }, [])
  | .setPinnedItems items =>
    ({ state with
        pinnedItems := keyByBucketHash items
        excludedItems := fun _ => none }, [])
  | .unpinItem item =>
    let bucketHash := item.bucket.hash
    ({ state with
        pinnedItems := fun b => if b = bucketHash then none else state.pinnedItems b }, [])
  | .excludeItem item =>
    let bucketHash := item.bucket.hash
    if ((state.excludedItems bucketHash).getD []).any (fun i => i.id == item.id) then
      (state, [])
    else
      let existingExcluded := (state.excludedItems bucketHash).getD []
      ({ state with
          pinnedItems := fun b => if b = bucketHash then none else state.pinnedItems b
          excludedItems := fun b =>
            if b = bucketHash then some (existingExcluded ++ [item])
            else state.excludedItems b }, [])
  | .unexcludeItem item =>
    let bucketHash := item.bucket.hash
    let newExcluded := ((state.excludedItems bucketHash).getD []).filter (fun i => i.id != item.id)
    ({ state with
        excludedItems := fun b =>
          if b = bucketHash then (if newExcluded.length > 0 then some newExcluded else none)
          else state.excludedItems b }, [])
  | .lockedModsChanged lockedMods =>
    (mergeLoadoutParameters state { mods := some (some (lockedMods.map (fun m => m.hash))) }, [])
  | .sortOrderChanged sortOrder => ({ state with statOrder := sortOrder }, [])
  | .assumeArmorMasterworkChanged assumeArmorMasterwork =>
    (mergeLoadoutParameters state { assumeArmorMasterwork := some assumeArmorMasterwork }, [])
  | .lockArmorEnergyTypeChanged lockArmorEnergyType =>
    (mergeLoadoutParameters state { lockArmorEnergyType := some lockArmorEnergyType }, [])
  | .addGeneralMods mods =>
    let newMods := loadoutMods state
    let currentGeneralModsCount := generalModsCount defs newMods
    let r := addGeneralModsLoop currentGeneralModsCount newMods [] mods
    let failures := r.2.2
    let notifications :=
      if failures.length ≠ 0 then
        [⟨"warning", t "LoadoutBuilder.UnableToAddAllMods",
          tInterpolate "LoadoutBuilder.UnableToAddAllModsBody" (String.intercalate ", " failures)⟩]
      else []
    (mergeLoadoutParameters state { mods := some (some r.2.1) }, notifications)
  | .removeLockedMod m =>
    let newMods := loadoutMods state
    let newMods :=
      match newMods.findIdx? (fun x => x == m.hash) with
      | some i => newMods.eraseIdx i
      | none => newMods
    (mergeLoadoutParameters state { mods := some (some newMods) }, [])
  | .updateSubclass _ => (state, [])
  | .removeSubclass => (state, [])
  | .updateSubclassSocketOverrides _ => (state, [])
  | .removeSingleSubclassSocketOverride _ => (state, [])
  | .lockExotic lockedExoticHash =>
    (mergeLoadoutParameters state { exoticArmorHash := some (some lockedExoticHash) }, [])
  | .removeLockedExotic =>
    (mergeLoadoutParameters state { exoticArmorHash := some none }, [])
  | .openModPicker plugCategoryHashWhitelist =>
    ({ state with modPicker := { opened := true, plugCategoryHashWhitelist } }, [])
  | .closeModPicker => ({ state with modPicker := { opened := false } }, [])
  | .openCompareDrawer s => ({ state with compareSet := some s }, [])
  | .closeCompareDrawer => ({ state with compareSet := none }, [])

/-! ## Initializer (lbStateInit) -/

/-- A character's store, reduced to the fields this code reads. -/
structure DimStore where
  id : String
  classType : Int := DestinyClass.Unknown
  current : Bool := false
deriving Repr, DecidableEq

/-- Modelled from the spec: `getCurrentStore` (stores-helpers.ts, not in the
excerpt) returns the currently-played character's store, here the store flagged
`current`. -/
def getCurrentStore (stores : List DimStore) : Option DimStore :=
  stores.find? (fun s => s.current)

/-- The InitializerArgs of `lbStateInit` (minus `defs`, which the initializer
never reads). Class-indexed tables map a class number to a possibly-absent
entry. -/
structure InitializerArgs where
  stores : List DimStore
  initialLoadout : Loadout
  customStatsByClass : Int → Option (List Nat)
  loStatOrderByClass : Int → Option (List Nat)

/-- The stat-order/stat-filter helper functions `lbStateInit` calls. They live
in loadout-params.ts (absent from the excerpt) or are not declared at all in
the shown file, so they are taken as parameters; `lbStateInit`'s own logic does
not depend on their values. The misspelling `Paramaters` is the source's. -/
structure InitHelpers where
  statOrderFromLoadoutParameters : LoadoutParameters → List Nat
  statOrderFromSavedPreferences : Option (List Nat) → Option (List Nat)
  statOrderFromCustomStats : Option (List Nat) → Option (List Nat)
  statFiltersFromLoadoutParamaters : LoadoutParameters → StatFilters

/-- `lbStateInit` from loadout-builder-reducer.ts. The non-null assertion
`getCurrentStore(stores)!` would throw when no store matches and no current
store exists; that crash is modelled as `none`. -/
def lbStateInit (h : InitHelpers) (args : InitializerArgs) : Option LoadoutBuilderState :=
  let classType := args.initialLoadout.classType
  let matchingClass :=
    if classType ≠ some DestinyClass.Unknown then
      args.stores.find? (fun s => some s.classType = classType)
    else none
  match matchingClass <|> getCurrentStore args.stores with
  | none => none
  | some store =>
    let selectedStoreId := store.id
    let loadoutParameters := args.initialLoadout.parameters.getD {}
    let classStatOrder := classType.bind args.loStatOrderByClass
    let classCustomStats := classType.bind args.customStatsByClass
    let statOrder :=
      if loadoutParameters.statConstraints.isSome then
        h.statOrderFromLoadoutParameters loadoutParameters
      else
        ((h.statOrderFromSavedPreferences classStatOrder) <|>
          (h.statOrderFromCustomStats classCustomStats)).getD
          (h.statOrderFromLoadoutParameters loadoutParameters)
    let statFilters := h.statFiltersFromLoadoutParamaters loadoutParameters
    some
      { loadout := args.initialLoadout
        statOrder
        pinnedItems := fun _ => none
        excludedItems := fun _ => none
        statFilters
        selectedStoreId := some selectedStoreId
        modPicker := { opened := false } }

/-! ## Configuration resolver (useInitialLoadout) -/

/-- JS truthiness of a possibly-absent string: absent, null and `""` are falsy. -/
def strOptTruthy : Option String → Bool
  | some s => s ≠ ""
  | none => false

/-- JS truthiness of a possibly-absent number: absent and 0 are falsy. -/
def intOptTruthy : Option Int → Bool
  | some n => n ≠ 0
  | none => false

/-- JS `parseInt(s)` in base 10: skips leading spaces, reads an optional sign
and a decimal-digit prefix; `none` models NaN. -/
def parseIntJS (s : String) : Option Int :=
  let cs := s.toList.dropWhile (fun c => c = ' ')
  let signAndRest : Bool × List Char :=
    match cs with
    | '-' :: rest => (true, rest)
    | '+' :: rest => (false, rest)
    | _ => (false, cs)
  let ds := signAndRest.2.takeWhile Char.isDigit
  if ds.isEmpty then none
  else
    let n : Nat := ds.foldl (fun acc c => acc * 10 + (c.toNat - 48)) 0
    some (if signAndRest.1 then -(n : Int) else (n : Int))

/-- Modelled from the spec: `LockableBucketHashes` (types.ts, not in the
excerpt), the fixed allow-list of lockable armor slot categories. -/
def LockableBucketHashes : List Nat :=
  [3448274439, 3551918588, 14239492, 20886954, 1585787867]

/-- Modelled from the spec: the hard-coded `defaultLoadoutParameters` constant
of the external dim-api-types package (all six stats, no mods, default
masterwork/energy settings). -/
def defaultLoadoutParameters : LoadoutParameters where
  mods := some []
  statConstraints := some
    [{ statHash := 2996146975 }, { statHash := 392767087 }, { statHash := 1943323491 },
     { statHash := 1735777505 }, { statHash := 144602215 }, { statHash := 4244567218 }]
  assumeArmorMasterwork := some 1
  lockArmorEnergyType := some 1

/-- JS spread `{...base, ...override}` of two LoadoutParameters objects.
JSON-parsed objects cannot carry explicitly-undefined values, so key presence
is exactly `some`. -/
def spreadLoadoutParameters (base override : LoadoutParameters) : LoadoutParameters where
  mods := override.mods <|> base.mods
  query := override.query <|> base.query
  statConstraints := override.statConstraints <|> base.statConstraints
  exoticArmorHash := override.exoticArmorHash <|> base.exoticArmorHash
  assumeArmorMasterwork := override.assumeArmorMasterwork <|> base.assumeArmorMasterwork
  lockArmorEnergyType := override.lockArmorEnergyType <|> base.lockArmorEnergyType

/-- `sanitizeLoadoutParameters` from initial-loadout.ts: empty an over-long
query, strip stat-constraint tier bounds, delete the masterwork-assumption and
energy-lock fields. -/
def sanitizeLoadoutParameters (loadoutParameters : LoadoutParameters) : LoadoutParameters :=
  { loadoutParameters with
    query :=
      match loadoutParameters.query with
      | some q => if q ≠ "" ∧ q.length > 2048 then some "" else some q
      | none => none
    statConstraints :=
      loadoutParameters.statConstraints.map
        (List.map (fun c => { statHash := c.statHash }))
    assumeArmorMasterwork := none
    lockArmorEnergyType := none }

/-- The parsed `s` query parameter: a subclass hash plus socket overrides. -/
structure Subclass where
  hash : Nat
  socketOverrides : List (Nat × Nat) := []
deriving Repr, DecidableEq

/-- The navigation-state payload `{ loadout, storeId }`. -/
structure PreloadedState where
  loadout : Option Loadout := none
  storeId : Option String := none
deriving Repr, DecidableEq

/-- The query parameters `useInitialLoadout` reads. The source key `class` is a
Lean keyword, rendered here as `classParam`. -/
structure SearchParams where
  l : Option String := none
  classParam : Option String := none
  p : Option String := none
  s : Option String := none
  n : Option String := none
deriving Repr, DecidableEq

/-- The resolver's external collaborators: the manifest, the share-payload
decoder (`parseLoadoutFromURLParam`, LoadoutDrawer2.tsx, not in the excerpt),
`JSON.parse` specialized to the two expected payload shapes (each may throw, so
`Except` with the error message), the saved preference parameters, and the
random id generated for a subclass loadout item. -/
structure ResolverEnv where
  defs : Option D2ManifestDefinitions := none
  parseLoadoutFromURLParam : String → Except String (Option Loadout)
  parseSubclassJSON : String → Except String Subclass
  parseLoadoutParametersJSON : String → Except String LoadoutParameters
  savedLoadoutParameters : Option LoadoutParameters := none
  freshSubclassItemId : String := "0"

/-- What `useInitialLoadout` produces: the `[loadout, storeId]` return value,
plus its two effects — the notifications shown and whether
`navigate(pathname, replace)` stripped the URL parameters. -/
structure ResolveOutput where
  loadout : Loadout
  selectedStoreId : Option String := none
  notifications : List Notification := []
  navReplaced : Bool := false
deriving Repr, DecidableEq

/-- The `Loadouts.BadLoadoutShare` error notification with the decode failure
message interpolated into the body. -/
def badLoadoutShareNotification (msg : String) : Notification :=
  ⟨"error", t "Loadouts.BadLoadoutShare", tInterpolate "Loadouts.BadLoadoutShareBody" msg⟩

/-- Modelled from the spec: `newLoadout` (loadout-utils.ts, not in the excerpt)
constructs a new empty Configuration with the given name, items and class and
no parameters or notes. -/
def newLoadout (name : String) (items : List LoadoutItem) (classType : Option Int) : Loadout :=
  { id := "", name, classType, items, parameters := none, notes := none }

/-- The prior-configuration branch of `useInitialLoadout` (tier 1): return the
navigation-state loadout, augmented with a locked-exotic parameter when it
lacks one and an equipped exotic in a lockable bucket is found. -/
def preloadedBranch (defs : Option D2ManifestDefinitions) (preloadedLoadout : Loadout)
    (storeId : Option String) : ResolveOutput :=
  let augmented :=
    if intOptTruthy (preloadedLoadout.parameters.bind (fun p => p.exoticArmorHash)) = false then
      match defs with
      | some defs =>
        let equippedExotic :=
          (((preloadedLoadout.items.filter (fun li => li.equip)).map
              (fun li => defs.InventoryItem li.hash)).find?
            (fun i =>
              strOptTruthy (i.bind (fun d => d.uniqueLabel)) &&
              LockableBucketHashes.contains ((i.bind (fun d => d.bucketTypeHash)).getD 0))).bind id
        match equippedExotic with
        | some e =>
          { preloadedLoadout with
            parameters := some
              { (preloadedLoadout.parameters.getD {}) with exoticArmorHash := some (e.hash : Int) } }
        | none => preloadedLoadout
      | none => preloadedLoadout
    else preloadedLoadout
  { loadout := augmented, selectedStoreId := storeId }

/-- The constructed-loadout branch of `useInitialLoadout` (tiers 3 and 4):
assemble a new loadout from the discrete query parameters, the saved preference
parameters and defaults. The source's lines filling a `statConstraints` local
from saved stats compute a value that is never used and are omitted. -/
def constructedBranch (env : ResolverEnv) (search : SearchParams) : ResolveOutput :=
  let classType0 : Option Int :=
    if strOptTruthy search.classParam then parseIntJS (search.classParam.getD "")
    else some DestinyClass.Unknown
  let subclassAndNotifs : Option Subclass × List Notification :=
    if strOptTruthy search.s then
      match env.parseSubclassJSON (search.s.getD "") with
      | .ok sc => (some sc, [])
      | .error e => (none, [badLoadoutShareNotification e])
    else (none, [])
  let paramsAndNotifs : Option LoadoutParameters × List Notification :=
    if strOptTruthy search.p then
      match env.parseLoadoutParametersJSON (search.p.getD "") with
      | .ok lp =>
        (some (sanitizeLoadoutParameters (spreadLoadoutParameters defaultLoadoutParameters lp)), [])
      | .error e => (env.savedLoadoutParameters, [badLoadoutShareNotification e])
    else (env.savedLoadoutParameters, [])
  let loadoutParameters := paramsAndNotifs.1
  let classType : Option Int :=
    match env.defs with
    | some defs =>
      if classType0 = some DestinyClass.Unknown then
        match loadoutParameters.bind (fun p => p.exoticArmorHash) with
        | some h =>
          if 0 < h then
            some (((defs.InventoryItem h.toNat).map (fun d => d.classType)).getD
              DestinyClass.Unknown)
          else classType0
        | none => classType0
      else classType0
    | none => classType0
  let constructedLoadout := newLoadout "" [] classType
  let constructedLoadout := { constructedLoadout with parameters := loadoutParameters }
  let constructedLoadout :=
    { constructedLoadout with
      notes :=
        match search.n with
        | some n => if n = "" then none else some n
        | none => none }
  let constructedLoadout :=
    match subclassAndNotifs.1 with
    | some sc =>
      { constructedLoadout with
        items := constructedLoadout.items ++
          [{ hash := sc.hash, socketOverrides := some sc.socketOverrides,
             id := some env.freshSubclassItemId, amount := 1, equip := true }] }
    | none => constructedLoadout
  { loadout := constructedLoadout
    notifications := subclassAndNotifs.2 ++ paramsAndNotifs.2 }

/-- The share-payload tier and fall-through of `useInitialLoadout` (tiers 2—4):
a truthy `l` parameter is decoded; success returns it, a decode failure shows
the error notification, and in either non-returning case the URL parameter is
stripped (`navigate(pathname, replace)`) before falling through. -/
def resolveFromSearch (env : ResolverEnv) (search : SearchParams) : ResolveOutput :=
  if strOptTruthy search.l then
    match env.parseLoadoutFromURLParam (search.l.getD "") with
    | .ok (some parsedLoadout) => { loadout := parsedLoadout }
    | .ok none =>
      let r := constructedBranch env search
      { r with navReplaced := true }
    | .error e =>
      let r := constructedBranch env search
      { r with
        notifications := badLoadoutShareNotification e :: r.notifications
        navReplaced := true }
  else constructedBranch env search

/-- `useInitialLoadout` from initial-loadout.ts, as a pure function of its
ambient inputs. -/
def useInitialLoadout (env : ResolverEnv) (navState : Option PreloadedState)
    (search : SearchParams) : ResolveOutput :=
  match navState with
  | some st =>
    match st.loadout with
    | some preloadedLoadout => preloadedBranch env.defs preloadedLoadout st.storeId
    | none => resolveFromSearch env search
  | none => resolveFromSearch env search

/-! ## Stated properties -/

/-- The general-category mod count of a state's loadout parameters. -/
def loadoutGeneralModsCount (defs : D2ManifestDefinitions) (state : LoadoutBuilderState) : Nat :=
  generalModsCount defs (loadoutMods state)

/-- The pin/exclude mutual-exclusion invariant: no slot has both a pinned item
and a non-empty exclusion list. -/
def pinExcludeInvariant (s : LoadoutBuilderState) : Prop :=
  ∀ k, (s.pinnedItems k).isSome = true → (s.excludedItems k).getD [] = []

/-- The frame of a single-slot item action: every pin/exclusion entry of any
other slot and every other state field is unchanged. -/
def framePreserved (s r : LoadoutBuilderState) (k : Nat) : Prop :=
  (∀ b, b ≠ k → r.pinnedItems b = s.pinnedItems b) ∧
  (∀ b, b ≠ k → r.excludedItems b = s.excludedItems b) ∧
  r.loadout = s.loadout ∧ r.statOrder = s.statOrder ∧ r.statFilters = s.statFilters ∧
  r.selectedStoreId = s.selectedStoreId ∧ r.modPicker = s.modPicker ∧
  r.compareSet = s.compareSet

/-! ## Concrete instances for witnesses -/

/-- A concrete manifest: hashes up to 20 are general-category plugs. -/
def exampleDefs : D2ManifestDefinitions :=
  ⟨fun h =>
    if h ≤ 20 then
      some { hash := h, classType := 0,
             plugCategoryHash := some armor2PlugCategoryHashesByName.general }
    else none⟩

/-- A concrete empty editor state. -/
def emptyState : LoadoutBuilderState where
  loadout := {}
  statOrder := []
  statFilters := []
  pinnedItems := fun _ => none
  excludedItems := fun _ => none
  modPicker := { opened := false }

/-- A concrete state whose loadout parameters carry the given mod list. -/
def stateWithMods (mods : List Nat) : LoadoutBuilderState :=
  { emptyState with
    loadout := { emptyState.loadout with parameters := some { mods := some mods } } }

/-- A concrete mod definition. -/
def mkMod (h : Nat) (name : String) : PluggableInventoryItemDefinition := ⟨h, ⟨name⟩⟩

/-- A concrete item in bucket 5. -/
def itemA : DimItem := ⟨"a", ⟨5⟩⟩

/-- A concrete state with `itemA` excluded in bucket 5. -/
def stateExcl : LoadoutBuilderState :=
  { emptyState with excludedItems := fun b => if b = 5 then some [itemA] else none }

/-- A concrete resolver environment: share-payload decoding always fails,
discrete JSON parsers succeed, saved parameters are present. -/
def exampleEnv : ResolverEnv where
  defs := none
  parseLoadoutFromURLParam := fun _ => .error "bad share"
  parseSubclassJSON := fun _ => .ok { hash := 1 }
  parseLoadoutParametersJSON := fun _ => .ok {}
  savedLoadoutParameters := some {}

/-- A 2049-character query string. -/
def bigQuery : String := (List.replicate 2049 'a').asString

/-! ## Theorems -/

/-- C9: the change-selected-character action replaces `selectedStoreId` with the
given identifier and resets `pinnedItems` and `excludedItems` to entirely empty
maps, regardless of how populated they were before. -/
theorem changeCharacter_spec (defs : D2ManifestDefinitions) (s : LoadoutBuilderState)
    (storeId : String) :
    (lbStateReducer defs s (.changeCharacter storeId)).1.selectedStoreId = some storeId ∧
    (∀ k, (lbStateReducer defs s (.changeCharacter storeId)).1.pinnedItems k = none) ∧
    (∀ k, (lbStateReducer defs s (.changeCharacter storeId)).1.excludedItems k = none) :=
  ⟨rfl, fun _ => rfl, fun _ => rfl⟩

/-- C8: unexcluding item `i` in slot `k` leaves `excludedItems[k]` equal to the
previous list with every entry matching `i`'s identifier removed; if that
removal leaves the list empty, the slot is stored as absent, not as an empty
list. -/
theorem unexcludeItem_spec (defs : D2ManifestDefinitions) (s : LoadoutBuilderState)
    (item : DimItem) :
    (lbStateReducer defs s (.unexcludeItem item)).1.excludedItems item.bucket.hash =
      (if ((s.excludedItems item.bucket.hash).getD []).filter (fun i => i.id != item.id) = []
       then none
       else some (((s.excludedItems item.bucket.hash).getD []).filter
          (fun i => i.id != item.id))) := by
  by_cases h :
      ((s.excludedItems item.bucket.hash).getD []).filter (fun i => i.id != item.id) = []
  · simp [lbStateReducer, h]
  · simp [lbStateReducer, h, List.length_pos]

/-- C7: excluding item `i` in slot `k` is a no-op returning the state unchanged
when an entry with `i`'s identifier is already present; otherwise the result
has `pinnedItems[k]` absent and `excludedItems[k]` equal to the previous list
with `i` appended; and the transition preserves freedom from duplicate item
identifiers in every exclusion list. -/
theorem excludeItem_spec (defs : D2ManifestDefinitions) (s : LoadoutBuilderState)
    (item : DimItem) :
    (((s.excludedItems item.bucket.hash).getD []).any (fun i => i.id == item.id) = true →
      lbStateReducer defs s (.excludeItem item) = (s, [])) ∧
    (((s.excludedItems item.bucket.hash).getD []).any (fun i => i.id == item.id) = false →
      (lbStateReducer defs s (.excludeItem item)).1.pinnedItems item.bucket.hash = none ∧
      (lbStateReducer defs s (.excludeItem item)).1.excludedItems item.bucket.hash =
        some ((s.excludedItems item.bucket.hash).getD [] ++ [item])) ∧
    ((∀ k l, s.excludedItems k = some l → (l.map (fun i => i.id)).Nodup) →
      ∀ k l, (lbStateReducer defs s (.excludeItem item)).1.excludedItems k = some l →
        (l.map (fun i => i.id)).Nodup) := by
  refine ⟨fun h => by simp [lbStateReducer, h], fun h => ⟨?_, ?_⟩, fun hnd k l hl => ?_⟩
  · simp [lbStateReducer, h]
  · simp [lbStateReducer, h]
  · by_cases h : ((s.excludedItems item.bucket.hash).getD []).any (fun i => i.id == item.id) = true
    · simp only [lbStateReducer, h, if_true] at hl
      exact hnd k l hl
    · simp only [Bool.not_eq_true] at h
      simp only [lbStateReducer, h, Bool.false_eq_true, if_false] at hl
      by_cases hb : k = item.bucket.hash
      · subst hb
        rw [if_pos rfl] at hl
        injection hl with hl
        subst hl
        rw [List.map_append, List.nodup_append]
        refine ⟨?_, by simp, ?_⟩
        · cases he : s.excludedItems item.bucket.hash with
          | none => simp [he]
          | some l0 => simpa [he] using hnd item.bucket.hash l0 he
        · intro x hx
          simp only [List.map_cons, List.map_nil, List.mem_singleton]
          intro hxid
          subst hxid
          simp only [List.any_eq_false] at h
          simp only [List.mem_map] at hx
          obtain ⟨i, hi, hix⟩ := hx
          exact absurd (by simpa using hix) (by simpa using h i hi)
      · rw [if_neg hb] at hl
        exact hnd k l hl

/-- C10: each of the four single-item actions (pin, unpin, exclude, unexclude)
on an item in slot `k` leaves every pin and exclusion entry of every slot other
than `k` unchanged, as well as the loadout, statOrder, statFilters,
selectedStoreId, modPicker and compareSet fields. -/
theorem itemActions_frame (defs : D2ManifestDefinitions) (s : LoadoutBuilderState)
    (item : DimItem) (a : LoadoutBuilderAction)
    (h : a = .pinItem item ∨ a = .unpinItem item ∨ a = .excludeItem item ∨
      a = .unexcludeItem item) :
    framePreserved s (lbStateReducer defs s a).1 item.bucket.hash := by
  rcases h with h | h | h | h <;> subst h
  · exact ⟨fun b hb => by simp [lbStateReducer, hb], fun b hb => by simp [lbStateReducer, hb],
      rfl, rfl, rfl, rfl, rfl, rfl⟩
  · exact ⟨fun b hb => by simp [lbStateReducer, hb], fun b hb => rfl,
      rfl, rfl, rfl, rfl, rfl, rfl⟩
  · by_cases hc : ((s.excludedItems item.bucket.hash).getD []).any (fun i => i.id == item.id) = true
    · exact ⟨fun b hb => by simp [lbStateReducer, hc], fun b hb => by simp [lbStateReducer, hc],
        by simp [lbStateReducer, hc], by simp [lbStateReducer, hc], by simp [lbStateReducer, hc],
        by simp [lbStateReducer, hc], by simp [lbStateReducer, hc], by simp [lbStateReducer, hc]⟩
    · simp only [Bool.not_eq_true] at hc
      exact ⟨fun b hb => by simp [lbStateReducer, hc, hb], fun b hb => by
          simp [lbStateReducer, hc, hb],
        by simp [lbStateReducer, hc], by simp [lbStateReducer, hc], by simp [lbStateReducer, hc],
        by simp [lbStateReducer, hc], by simp [lbStateReducer, hc], by simp [lbStateReducer, hc]⟩
  · exact ⟨fun b hb => rfl, fun b hb => by simp [lbStateReducer, hb],
      rfl, rfl, rfl, rfl, rfl, rfl⟩

/-- C10 witness: the frame property at a concrete state, item and action. -/
theorem itemActions_frame_witness :
    framePreserved emptyState (lbStateReducer exampleDefs emptyState (.pinItem itemA)).1
      itemA.bucket.hash :=
  itemActions_frame exampleDefs emptyState itemA (.pinItem itemA) (Or.inl rfl)

/-- C7 witness: excluding an already-excluded item at a concrete state is the
identity transition. -/
theorem excludeItem_spec_witness :
    lbStateReducer exampleDefs stateExcl (.excludeItem itemA) = (stateExcl, []) :=
  (excludeItem_spec exampleDefs stateExcl itemA).1 (by decide)

/-- C2: the pin/exclude mutual-exclusion invariant — no slot simultaneously has
a pinned item and a non-empty exclusion list — holds for every state produced
by `lbStateInit` (both maps start empty) and is preserved by every action of
`lbStateReducer`. -/
theorem pinExclude_invariant :
    (∀ (h : InitHelpers) (args : InitializerArgs) (st : LoadoutBuilderState),
      lbStateInit h args = some st → pinExcludeInvariant st) ∧
    (∀ (defs : D2ManifestDefinitions) (s : LoadoutBuilderState) (a : LoadoutBuilderAction),
      pinExcludeInvariant s → pinExcludeInvariant (lbStateReducer defs s a).1) := by
  constructor
  · intro h args st hst
    simp only [lbStateInit] at hst
    split at hst
    · exact absurd hst (by simp)
    · injection hst with hst
      subst hst
      intro k hk
      simp at hk
  · intro defs s a hinv
    cases a
    case changeCharacter storeId =>
      intro k hk
      simp [lbStateReducer] at hk
    case pinItem item =>
      intro k hk
      by_cases hb : k = item.bucket.hash
      · subst hb; simp [lbStateReducer]
      · simp only [lbStateReducer] at hk ⊢
        rw [if_neg hb] at hk ⊢
        exact hinv k hk
    case setPinnedItems items =>
      intro k hk
      simp [lbStateReducer]
    case unpinItem item =>
      intro k hk
      by_cases hb : k = item.bucket.hash
      · subst hb
        simp [lbStateReducer] at hk
      · simp only [lbStateReducer] at hk ⊢
        rw [if_neg hb] at hk
        exact hinv k hk
    case excludeItem item =>
      cases hc : ((s.excludedItems item.bucket.hash).getD []).any (fun i => i.id == item.id)
      · intro k hk
        by_cases hb : k = item.bucket.hash
        · subst hb
          simp [lbStateReducer, hc] at hk
        · simp only [lbStateReducer, hc] at hk ⊢
          simp only [Bool.false_eq_true, if_false] at hk ⊢
          rw [if_neg hb] at hk ⊢
          exact hinv k hk
      · simpa [lbStateReducer, hc] using hinv
    case unexcludeItem item =>
      intro k hk
      by_cases hb : k = item.bucket.hash
      · subst hb
        have hk' : (s.pinnedItems item.bucket.hash).isSome = true := hk
        have h0 := hinv _ hk'
        simp [lbStateReducer, h0]
      · simp only [lbStateReducer] at hk ⊢
        rw [if_neg hb]
        exact hinv k hk
    all_goals exact hinv

/-- C2 witness: the invariant at a concrete reducer step from a concrete state. -/
theorem pinExclude_invariant_witness :
    pinExcludeInvariant (lbStateReducer exampleDefs emptyState (.pinItem itemA)).1 :=
  pinExclude_invariant.2 exampleDefs emptyState (.pinItem itemA)
    (fun k hk => by simp [emptyState] at hk)

/-- Appending one mod hash raises the general-category count by at most one. -/
theorem generalModsCount_append_le (defs : D2ManifestDefinitions) (acc : List Nat) (h : Nat) :
    generalModsCount defs (acc ++ [h]) ≤ generalModsCount defs acc + 1 := by
  by_cases hg : isGeneralMod defs h = true
  · simp [generalModsCount, List.filter_append, hg]
  · simp only [Bool.not_eq_true] at hg
    simp [generalModsCount, List.filter_append, hg]

/-- The addGeneralMods loop keeps the accepted list's general-category count at
most 5, provided the running count bounds it and starts at most 5. -/
theorem addGeneralModsLoop_bound (defs : D2ManifestDefinitions) :
    ∀ (ms : List PluggableInventoryItemDefinition) (cnt : Nat) (acc : List Nat)
      (fs : List String),
      generalModsCount defs acc ≤ cnt → cnt ≤ 5 →
      generalModsCount defs (addGeneralModsLoop cnt acc fs ms).2.1 ≤ 5
  | [], cnt, acc, fs, h1, h2 => by
    simpa [addGeneralModsLoop] using le_trans h1 h2
  | m :: rest, cnt, acc, fs, h1, h2 => by
    by_cases hc : cnt < 5
    · have ih := addGeneralModsLoop_bound defs rest (cnt + 1) (acc ++ [m.hash]) fs
        (le_trans (generalModsCount_append_le defs acc m.hash) (by omega)) (by omega)
      simpa [addGeneralModsLoop, hc] using ih
    · have ih := addGeneralModsLoop_bound defs rest cnt acc
        (fs ++ [m.displayProperties.name]) h1 h2
      simpa [addGeneralModsLoop, hc] using ih

/-- C1 counterexample: from a state already holding 6 general-category mods,
an addGeneralMods action leaves the parameters with 6 general mods — more
than 5 — so the unconditional cap claim fails. -/
theorem addGeneralMods_cap_counterexample :
    5 < loadoutGeneralModsCount exampleDefs
      (lbStateReducer exampleDefs (stateWithMods [1, 2, 3, 4, 5, 6])
        (.addGeneralMods [mkMod 7 "Mod7"])).1 := by decide

/-- C1 (amended): provided the state's parameters hold at most 5
general-category mods, the result of addGeneralMods also holds at most 5; and
in the concrete 3-present/7-offered scenario exactly the first 2 offered mods
are appended, the other 5 are rejected, and a single warning notification lists
exactly those 5 rejected mods' display names. -/
theorem addGeneralMods_cap :
    (∀ (defs : D2ManifestDefinitions) (state : LoadoutBuilderState)
        (mods : List PluggableInventoryItemDefinition),
      loadoutGeneralModsCount defs state ≤ 5 →
      loadoutGeneralModsCount defs (lbStateReducer defs state (.addGeneralMods mods)).1 ≤ 5) ∧
    ((lbStateReducer exampleDefs (stateWithMods [1, 2, 3])
        (.addGeneralMods [mkMod 11 "Mod11", mkMod 12 "Mod12", mkMod 13 "Mod13",
          mkMod 14 "Mod14", mkMod 15 "Mod15", mkMod 16 "Mod16",
          mkMod 17 "Mod17"])).1.loadout.parameters =
      some { mods := some [1, 2, 3, 11, 12] }) ∧
    (lbStateReducer exampleDefs (stateWithMods [1, 2, 3])
        (.addGeneralMods [mkMod 11 "Mod11", mkMod 12 "Mod12", mkMod 13 "Mod13",
          mkMod 14 "Mod14", mkMod 15 "Mod15", mkMod 16 "Mod16", mkMod 17 "Mod17"])).2 =
      [⟨"warning", "LoadoutBuilder.UnableToAddAllMods",
        "LoadoutBuilder.UnableToAddAllModsBody: Mod13, Mod14, Mod15, Mod16, Mod17"⟩] := by
  refine ⟨?_, by decide, by decide⟩
  intro defs state mods h
  have hb := addGeneralModsLoop_bound defs mods (generalModsCount defs (loadoutMods state))
    (loadoutMods state) [] le_rfl h
  simpa [lbStateReducer, loadoutGeneralModsCount, loadoutMods, mergeLoadoutParameters,
    LoadoutParameters.applyPatch] using hb

/-- C1 witness: the cap bound applied at a concrete state and action. -/
theorem addGeneralMods_cap_witness :
    loadoutGeneralModsCount exampleDefs (stateWithMods [1, 2, 3]) ≤ 5 ∧
    loadoutGeneralModsCount exampleDefs
      (lbStateReducer exampleDefs (stateWithMods [1, 2, 3])
        (.addGeneralMods [mkMod 11 "Mod11"])).1 ≤ 5 :=
  ⟨by decide,
    addGeneralMods_cap.1 exampleDefs (stateWithMods [1, 2, 3]) [mkMod 11 "Mod11"] (by decide)⟩

/-- The parameters of the constructed branch: the sanitized merge of a parsed
`p` parameter over defaults, or the saved preference parameters. -/
theorem constructedBranch_parameters (env : ResolverEnv) (search : SearchParams) :
    (constructedBranch env search).loadout.parameters =
      (if strOptTruthy search.p then
        match env.parseLoadoutParametersJSON (search.p.getD "") with
        | .ok lp =>
          some (sanitizeLoadoutParameters (spreadLoadoutParameters defaultLoadoutParameters lp))
        | .error _ => env.savedLoadoutParameters
       else env.savedLoadoutParameters) := by
  by_cases hs : strOptTruthy search.s = true
  · cases hsub : env.parseSubclassJSON (search.s.getD "") with
    | ok sc =>
      by_cases hp : strOptTruthy search.p = true
      · cases hres : env.parseLoadoutParametersJSON (search.p.getD "") with
        | ok lp => simp [constructedBranch, hs, hsub, hp, hres]
        | error e => simp [constructedBranch, hs, hsub, hp, hres]
      · simp [constructedBranch, hs, hsub, hp]
    | error e =>
      by_cases hp : strOptTruthy search.p = true
      · cases hres : env.parseLoadoutParametersJSON (search.p.getD "") with
        | ok lp => simp [constructedBranch, hs, hsub, hp, hres]
        | error e2 => simp [constructedBranch, hs, hsub, hp, hres]
      · simp [constructedBranch, hs, hsub, hp]
  · by_cases hp : strOptTruthy search.p = true
    · cases hres : env.parseLoadoutParametersJSON (search.p.getD "") with
      | ok lp => simp [constructedBranch, hs, hp, hres]
      | error e => simp [constructedBranch, hs, hp, hres]
    · simp [constructedBranch, hs, hp]

/-- The notifications of the constructed branch: one bad-share error per failed
discrete JSON parameter, subclass first. -/
theorem constructedBranch_notifications (env : ResolverEnv) (search : SearchParams) :
    (constructedBranch env search).notifications =
      (if strOptTruthy search.s then
        match env.parseSubclassJSON (search.s.getD "") with
        | .ok _ => []
        | .error e => [badLoadoutShareNotification e]
       else []) ++
      (if strOptTruthy search.p then
        match env.parseLoadoutParametersJSON (search.p.getD "") with
        | .ok _ => []
        | .error e => [badLoadoutShareNotification e]
       else []) := by
  by_cases hs : strOptTruthy search.s = true
  · cases hsub : env.parseSubclassJSON (search.s.getD "") with
    | ok sc =>
      by_cases hp : strOptTruthy search.p = true
      · cases hres : env.parseLoadoutParametersJSON (search.p.getD "") with
        | ok lp => simp [constructedBranch, hs, hsub, hp, hres]
        | error e => simp [constructedBranch, hs, hsub, hp, hres]
      · simp [constructedBranch, hs, hsub, hp]
    | error e =>
      by_cases hp : strOptTruthy search.p = true
      · cases hres : env.parseLoadoutParametersJSON (search.p.getD "") with
        | ok lp => simp [constructedBranch, hs, hsub, hp, hres]
        | error e2 => simp [constructedBranch, hs, hsub, hp, hres]
      · simp [constructedBranch, hs, hsub, hp]
  · by_cases hp : strOptTruthy search.p = true
    · cases hres : env.parseLoadoutParametersJSON (search.p.getD "") with
      | ok lp => simp [constructedBranch, hs, hp, hres]
      | error e => simp [constructedBranch, hs, hp, hres]
    · simp [constructedBranch, hs, hp]

/-- C3: when the navigation state carries a prior configuration, the resolver
takes the prior-configuration branch — a result independent of the share-link
query parameter and of its decoder, which is never invoked — and when no
manifest is available the prior configuration is returned exactly as passed. -/
theorem priorConfig_precedence :
    (∀ (env : ResolverEnv) (navSt : PreloadedState) (search : SearchParams) (L : Loadout),
      navSt.loadout = some L →
      useInitialLoadout env (some navSt) search = preloadedBranch env.defs L navSt.storeId) ∧
    (∀ (env : ResolverEnv) (f : String → Except String (Option Loadout))
        (navSt : PreloadedState) (search search2 : SearchParams) (L : Loadout),
      navSt.loadout = some L →
      useInitialLoadout { env with parseLoadoutFromURLParam := f } (some navSt) search =
        useInitialLoadout env (some navSt) search2) ∧
    (∀ (L : Loadout) (storeId : Option String),
      preloadedBranch none L storeId = { loadout := L, selectedStoreId := storeId }) := by
  refine ⟨fun env navSt search L h => by simp [useInitialLoadout, h],
    fun env f navSt search search2 L h => by simp [useInitialLoadout, h], ?_⟩
  intro L storeId
  by_cases he : intOptTruthy (L.parameters.bind fun p => p.exoticArmorHash) = false
  · simp [preloadedBranch, he]
  · simp only [Bool.not_eq_false] at he
    simp [preloadedBranch, he]

/-- C3 witness: the precedence property at a concrete environment, navigation
state and search string. -/
theorem priorConfig_precedence_witness :
    useInitialLoadout exampleEnv (some { loadout := some {}, storeId := some "s1" })
      { l := some "xyz" } = preloadedBranch exampleEnv.defs {} (some "s1") :=
  priorConfig_precedence.1 exampleEnv { loadout := some {}, storeId := some "s1" }
    { l := some "xyz" } {} rfl

/-- C4: sanitization empties a query longer than 2048 characters; keeps each
stat constraint's identifier and position while removing its minTier and
maxTier; removes assumeArmorMasterwork and lockArmorEnergyType entirely;
preserves the remaining fields; is exactly what a parsed `p` URL parameter
passes through before reaching the constructed Configuration; and is never
applied to a directly-passed prior configuration's parameters. -/
theorem sanitize_spec :
    (∀ (p : LoadoutParameters) (q : String), p.query = some q → 2048 < q.length →
      (sanitizeLoadoutParameters p).query = some "") ∧
    (∀ p : LoadoutParameters, (sanitizeLoadoutParameters p).statConstraints =
      p.statConstraints.map (List.map (fun c => { statHash := c.statHash }))) ∧
    (∀ p : LoadoutParameters, (sanitizeLoadoutParameters p).assumeArmorMasterwork = none ∧
      (sanitizeLoadoutParameters p).lockArmorEnergyType = none) ∧
    (∀ p : LoadoutParameters, (sanitizeLoadoutParameters p).mods = p.mods ∧
      (sanitizeLoadoutParameters p).exoticArmorHash = p.exoticArmorHash) ∧
    (∀ (env : ResolverEnv) (search : SearchParams) (lp : LoadoutParameters),
      strOptTruthy search.p = true →
      env.parseLoadoutParametersJSON (search.p.getD "") = .ok lp →
      (constructedBranch env search).loadout.parameters =
        some (sanitizeLoadoutParameters (spreadLoadoutParameters defaultLoadoutParameters lp))) ∧
    (∀ (L : Loadout) (storeId : Option String) (defs : Option D2ManifestDefinitions),
      intOptTruthy (L.parameters.bind fun p => p.exoticArmorHash) = true →
      (preloadedBranch defs L storeId).loadout.parameters = L.parameters) := by
  refine ⟨?_, fun p => rfl, fun p => ⟨rfl, rfl⟩, fun p => ⟨rfl, rfl⟩, ?_, ?_⟩
  · intro p q hq hlen
    have hne : q ≠ "" := by
      intro h0
      subst h0
      exact absurd hlen (by decide)
    simp only [sanitizeLoadoutParameters, hq]
    rw [if_pos ⟨hne, hlen⟩]
  · intro env search lp hp hres
    rw [constructedBranch_parameters]
    simp [hp, hres]
  · intro L storeId defs he
    simp [preloadedBranch, he]

/-- C4 witness: a 2049-character query is emptied, and a concrete parsed `p`
parameter reaches the constructed Configuration sanitized and merged over
defaults. -/
theorem sanitize_spec_witness :
    (sanitizeLoadoutParameters { query := some bigQuery }).query = some "" ∧
    (constructedBranch exampleEnv { p := some "x" }).loadout.parameters =
      some (sanitizeLoadoutParameters (spreadLoadoutParameters defaultLoadoutParameters {})) :=
  ⟨sanitize_spec.1 { query := some bigQuery } bigQuery rfl
      (by rw [bigQuery, List.length_asString, List.length_replicate]; omega),
    sanitize_spec.2.2.2.2.1 exampleEnv { p := some "x" } {} (by decide) rfl⟩

/-- C5: when decoding of the share-link payload fails, resolution emits exactly
one notification — the bad-share error with the failure message interpolated —
strips the URL parameter via a navigation replace, and falls through to the
Configuration built by the constructed (tier-3) branch, provided the discrete
`s` and `p` parameters themselves parse when present. -/
theorem shareDecodeFailure_spec (env : ResolverEnv) (search : SearchParams) (msg : String)
    (hl : strOptTruthy search.l = true)
    (hparse : env.parseLoadoutFromURLParam (search.l.getD "") = .error msg)
    (hs : strOptTruthy search.s = true →
      ∃ sc, env.parseSubclassJSON (search.s.getD "") = .ok sc)
    (hp : strOptTruthy search.p = true →
      ∃ lp, env.parseLoadoutParametersJSON (search.p.getD "") = .ok lp) :
    (useInitialLoadout env none search).notifications = [badLoadoutShareNotification msg] ∧
    (badLoadoutShareNotification msg).type = "error" ∧
    (useInitialLoadout env none search).navReplaced = true ∧
    (useInitialLoadout env none search).loadout = (constructedBranch env search).loadout := by
  have hnotifs : (constructedBranch env search).notifications = [] := by
    rw [constructedBranch_notifications]
    by_cases hs' : strOptTruthy search.s = true
    · obtain ⟨sc, hsc⟩ := hs hs'
      by_cases hp' : strOptTruthy search.p = true
      · obtain ⟨lp, hlp⟩ := hp hp'
        simp [hs', hsc, hp', hlp]
      · simp [hs', hsc, hp']
    · by_cases hp' : strOptTruthy search.p = true
      · obtain ⟨lp, hlp⟩ := hp hp'
        simp [hs', hp', hlp]
      · simp [hs', hp']
  have hul : useInitialLoadout env none search =
      { constructedBranch env search with
        notifications :=
          badLoadoutShareNotification msg :: (constructedBranch env search).notifications
        navReplaced := true } := by
    simp [useInitialLoadout, resolveFromSearch, hl, hparse]
  refine ⟨?_, rfl, ?_, ?_⟩ <;> (rw [hul]; try simp [hnotifs])

/-- C5 witness: the decode-failure behaviour at a concrete environment whose
share decoder fails with message bad share. -/
theorem shareDecodeFailure_witness :
    (useInitialLoadout exampleEnv none { l := some "xyz" }).notifications =
      [badLoadoutShareNotification "bad share"] ∧
    (badLoadoutShareNotification "bad share").type = "error" ∧
    (useInitialLoadout exampleEnv none { l := some "xyz" }).navReplaced = true ∧
    (useInitialLoadout exampleEnv none { l := some "xyz" }).loadout =
      (constructedBranch exampleEnv { l := some "xyz" }).loadout :=
  shareDecodeFailure_spec exampleEnv { l := some "xyz" } "bad share" (by decide) rfl
    (fun h => absurd h (by decide)) (fun h => absurd h (by decide))

/-- C6 counterexample: a directly-passed prior configuration without parameters
and with no manifest available is returned with `parameters` still absent, so
the all-tiers invariant fails. -/
theorem resolver_parameters_counterexample :
    (useInitialLoadout exampleEnv (some { loadout := some {}, storeId := none })
      {}).loadout.parameters = none := by decide

/-- C6 (amended): a Configuration produced by the constructed (tier-3) branch
has its parameters present whenever the saved preference parameters are present
or a parseable `p` parameter is supplied — and that branch is what the resolver
returns when no prior configuration and no share-link parameter exist — but a
directly-passed prior configuration may be returned with parameters absent. -/
theorem constructed_parameters_present (env : ResolverEnv) (search : SearchParams)
    (h : env.savedLoadoutParameters.isSome = true ∨
      (strOptTruthy search.p = true ∧
        ∃ lp, env.parseLoadoutParametersJSON (search.p.getD "") = .ok lp)) :
    ((constructedBranch env search).loadout.parameters).isSome = true ∧
    (search.l = none → useInitialLoadout env none search = constructedBranch env search) := by
  constructor
  · rw [constructedBranch_parameters]
    by_cases hp : strOptTruthy search.p = true
    · cases hres : env.parseLoadoutParametersJSON (search.p.getD "") with
      | ok lp => simp [hp, hres]
      | error e =>
        simp only [hp, if_true, hres]
        rcases h with h | ⟨_, lp, hlp⟩
        · exact h
        · rw [hlp] at hres
          cases hres
    · rcases h with h | ⟨hp', _⟩
      · simp [hp, h]
      · exact absurd hp' hp
  · intro hl
    simp [useInitialLoadout, resolveFromSearch, hl, strOptTruthy]

/-- C6 witness: the amended property at a concrete environment with saved
preference parameters present. -/
theorem constructed_parameters_present_witness :
    ((constructedBranch exampleEnv {}).loadout.parameters).isSome = true ∧
    (({} : SearchParams).l = none →
      useInitialLoadout exampleEnv none {} = constructedBranch exampleEnv {}) :=
  constructed_parameters_present exampleEnv {} (Or.inl rfl)

end DIM
